import Mathlib

/-!
Verification development for the CircuitVerse circuit-deserialization core and the
subcircuit folder panel.  The definitions below are shallow embeddings of the
JavaScript sources: `src/simulator/src/folderPanel.js` (folder tree and subcircuit
moves) and the project/scope loader (`loadScope`, `loadModule`, `rectifyObjectType`,
`removeBugNodes`, `load`).  JavaScript object maps are modelled as association
lists, `null`/`undefined` as `Option.none`, string truthiness as "nonempty", and
object identity (where a claim depends on which object a field assignment targets)
as references into an explicit store.
-/

set_option maxHeartbeats 1000000

namespace CircuitVerse

/-! ## Folder panel (src/simulator/src/folderPanel.js) -/

/-- A folder record in a scope's folder collection (`FolderDoc`): identifier,
display name, and optional parent-folder identifier (`none` models an absent or
`null` `parentId`). -/
structure Folder where
  id : String
  name : String
  parentId : Option String
deriving Repr, DecidableEq

/-- The subcircuit-to-folder map (`scope.subcircuitMap`), a JavaScript object used
as a string map: modelled as an association list in insertion order. -/
abbrev SubcircuitMap := List (String × String)

/-- Property read `m[k]` on the subcircuit map. -/
def mapLookup (m : SubcircuitMap) (k : String) : Option String :=
  (m.find? (fun p => p.1 == k)).map Prod.snd

/-- Property deletion `delete m[k]`: removes the binding for `k`, if any. -/
def mapErase (m : SubcircuitMap) (k : String) : SubcircuitMap :=
  m.filter (fun p => p.1 != k)

/-- Property write `m[k] = v`: updates the binding in place if the key exists,
otherwise appends a new binding. -/
def mapInsert (m : SubcircuitMap) (k v : String) : SubcircuitMap :=
  if (m.find? (fun p => p.1 == k)).isSome then
    m.map (fun p => if p.1 == k then (k, v) else p)
  else m ++ [(k, v)]

/-- Outcome of `moveSubcircuitToFolder`: the subcircuit map afterwards, whether
`scheduleBackup(scope)` was called, and whether the success path (UI re-render and
success message) was reached. -/
structure MoveResult where
  map : SubcircuitMap
  backupScheduled : Bool
  success : Bool
deriving Repr, DecidableEq

/-- Model of `moveSubcircuitToFolder(subcircuitId, folderId, scope)`
(folderPanel.js lines 543-614).  `folderId = none` is the JavaScript `null`
destination (root).  `scopes` is the list of identifiers present in the global
`scopeList`.  Every early `return` leaves the map as it was and schedules no
backup; only the mutation path re-renders, schedules a backup and shows the
success message. -/
def moveSubcircuitToFolder (subcircuitId : String) (folderId : Option String)
    (scopes : List String) (folders : List Folder) (m : SubcircuitMap) : MoveResult :=
  -- if (!subcircuitId) return;
  if subcircuitId = "" then ⟨m, false, false⟩
  -- if (!scopeList[subcircuitId]) return;
  else if subcircuitId ∉ scopes then ⟨m, false, false⟩
  else
    -- const currentFolder = scope.subcircuitMap[subcircuitId] || "root";
    let currentFolder :=
      match mapLookup m subcircuitId with
      | some f => if f = "" then "root" else f
      | none => "root"
    -- if (currentFolder === folderId) return;  --- `folderId` is `null` for a root
    -- move and a string is never strictly equal to `null`, so this guard can only
    -- fire for a non-null destination.
    let sameFolder : Bool :=
      match folderId with
      | some fid => currentFolder == fid
      | none => false
    if sameFolder then ⟨m, false, false⟩
    else
      match folderId with
      | none =>
        -- delete scope.subcircuitMap[subcircuitId]; then render + scheduleBackup
        ⟨mapErase m subcircuitId, true, true⟩
      | some fid =>
        -- const folderExists = scope.folders.some(folder => folder.id === folderId);
        if folders.any (fun f => f.id == fid) then
          -- scope.subcircuitMap[subcircuitId] = folderId; then render + scheduleBackup
          ⟨mapInsert m subcircuitId fid, true, true⟩
        else ⟨m, false, false⟩

/-! ### Folder tree construction for display (`createFolderStructure`) -/

/-- Identifiers of the folders that receive an element in `createFolderStructure`:
folders with a falsy id are skipped (`if (!folder || !folder.id) continue`). -/
def validFolderIds (folders : List Folder) : List String :=
  (folders.filter (fun f => f.id != "")).map Folder.id

/-- Where the hierarchy loop of `createFolderStructure` (folderPanel.js lines
262-287) attaches a folder's element.  `folderElements` holds the key `"root"`
(the root container) and every valid folder id, so the element goes under the
declared parent when `parentId` is truthy and has an element, and directly under
the root container otherwise (`parentId` absent, falsy, or not the id of any
folder in the collection). -/
def placedUnder (folders : List Folder) (f : Folder) : String :=
  match f.parentId with
  | none => "root"
  | some p =>
    if p = "" then "root"
    else if p = "root" then "root"
    else if p ∈ validFolderIds folders then p
    else "root"

/-- Walking up the displayed tree from a folder's element with the given amount of
fuel: `true` when the chain of containing folder elements reaches the root
container. -/
def reachesRootAux (folders : List Folder) : Nat → Folder → Bool
  | 0, _ => false
  | fuel + 1, f =>
    if placedUnder folders f = "root" then true
    else
      match folders.find? (fun g => g.id == placedUnder folders f) with
      | some g => reachesRootAux folders fuel g
      | none => false

/-- A folder's element is reachable from the traversal root of the displayed
tree. -/
def ReachesRoot (folders : List Folder) (f : Folder) : Prop :=
  ∃ fuel, reachesRootAux folders fuel f = true

/-- A concrete folder collection for the C10 witness: `"f1"` has a dangling parent
`"ghost"`, and `"f2"` is nested under `"f1"`. -/
def foldersC10 : List Folder :=
  [⟨"f1", "A", some "ghost"⟩, ⟨"f2", "B", some "f1"⟩]

/-- Rank function witnessing acyclicity of `foldersC10`. -/
def rankC10 : String → Nat := fun s => if s = "f2" then 1 else 0

/-! ## Module instantiator (`rectifyObjectType`, `loadModule`) -/

/-- Backward-compatibility type-tag rectification (`rectifyObjectType`): the
translation table maps `"FlipFlop"` to `"DflipFlop"` and `"Ram"` to `"Rom"`; a
tag not in the table is returned unchanged (`rectify[obj] || obj`). -/
def rectifyObjectType (obj : String) : String :=
  if obj = "FlipFlop" then "DflipFlop"
  else if obj = "Ram" then "Rom"
  else obj

/-- Modelled from the spec: `fixDirection` (from canvasApi, not part of the
excerpt) normalizes a legacy orientation token to the canonical one; a canonical
token passes through unchanged. -/
def fixDirection (d : String) : String :=
  if d = "right" then "RIGHT"
  else if d = "left" then "LEFT"
  else if d = "up" then "UP"
  else if d = "down" then "DOWN"
  else d

/-- Modelled from the spec: `oppositeDirection` (from canvasApi, not part of the
excerpt) maps each canonical direction to the opposite one. -/
def oppositeDirection (d : String) : String :=
  if d = "RIGHT" then "LEFT"
  else if d = "LEFT" then "RIGHT"
  else if d = "UP" then "DOWN"
  else if d = "DOWN" then "UP"
  else d

/-- A serialized circuit-element record (`ElementDoc`), restricted to the fields
the claims are about.  `none` models an absent field; an explicit empty string in
`labelDirection` is distinct from an absent one. -/
structure ElementDoc where
  objectType : String
  x : Int
  y : Int
  label : Option String
  labelDirection : Option String
  propagationDelay : Option Nat
deriving Repr, DecidableEq

/-- What a module constructor contributes to a freshly constructed element,
modelled from the spec: the type registry maps a (rectified) type tag to a
constructible type whose constructor sets the element's own orientation and its
built-in default propagation delay. -/
structure ElementDefaults where
  direction : String
  propagationDelay : Nat
deriving Repr, DecidableEq

/-- A live circuit element, restricted to the fields the claims are about. -/
structure ElementObj where
  objectType : String
  x : Int
  y : Int
  direction : String
  label : Option String
  labelDirection : String
  propagationDelay : Nat
deriving Repr, DecidableEq

/-- Model of `loadModule` (part_000 lines 39-79).  `modules` is the type
registry; an unknown (post-rectification) tag makes construction fail
(`none`).  The property-overlay (`customData.values`), node replacement
(`customData.nodes`), `obj.fixDirection()` and `subcircuitMetadata` steps do not
touch the fields modelled here and are left out. -/
def loadModule (modules : String → Option ElementDefaults) (data : ElementDoc) :
    Option ElementObj :=
  -- var obj = new modules[rectifyObjectType(data.objectType)](data.x, data.y, scope, ...);
  match modules (rectifyObjectType data.objectType) with
  | none => none
  | some dflt =>
    let obj : ElementObj :=
      { objectType := rectifyObjectType data.objectType, x := data.x, y := data.y,
        direction := dflt.direction, label := none, labelDirection := "",
        propagationDelay := dflt.propagationDelay }
    -- obj.label = data.label;
    let obj := { obj with label := data.label }
    -- obj.labelDirection = data.labelDirection || oppositeDirection[fixDirection[obj.direction]];
    let obj :=
      { obj with labelDirection :=
          match data.labelDirection with
          | some s => if s = "" then oppositeDirection (fixDirection obj.direction) else s
          | none => oppositeDirection (fixDirection obj.direction) }
    -- if (data.propagationDelay === 0) { obj.propagationDelay = 0; }
    -- else { obj.propagationDelay = data.propagationDelay || obj.propagationDelay; }
    let obj :=
      if data.propagationDelay = some 0 then { obj with propagationDelay := 0 }
      else
        { obj with propagationDelay :=
            match data.propagationDelay with
            | some n => if n = 0 then obj.propagationDelay else n
            | none => obj.propagationDelay }
    some obj

/-! ## Buggy-node cleanup (`removeBugNodes`) -/

/-- A live node, restricted to what `removeBugNodes` inspects: the node-kind tag
(`2` denotes an intermediate node) and the `objectType` of the owning parent
element. -/
structure NodeObj where
  nodeType : Nat
  parentObjectType : String
deriving Repr, DecidableEq

/-- The deletion condition of `removeBugNodes`:
`allNodes[i].type !== 2 && allNodes[i].parent.objectType === 'CircuitElement'`. -/
def isBugNode (n : NodeObj) : Bool :=
  n.nodeType != 2 && n.parentObjectType == "CircuitElement"

/-- The loop of `removeBugNodes` (part_000 lines 87-94).  `node.delete()` is
modelled from the spec as removing that node from the list (node.js is not part
of the excerpt; the claims use unconnected nodes, so no cascade applies).  After
a deletion the body sets `i = 0` and refreshes `x`, and the `for` update then
increments `i`, so the scan resumes at index `1`. -/
def removeBugNodesLoop (nodes : List NodeObj) (i : Nat) : List NodeObj :=
  if h : i < nodes.length then
    if isBugNode (nodes.get ⟨i, h⟩) then
      removeBugNodesLoop (nodes.eraseIdx i) 1
    else
      removeBugNodesLoop nodes (i + 1)
  else nodes
termination_by (nodes.length, nodes.length - i)
decreasing_by
  · apply Prod.Lex.left
    have := List.length_eraseIdx_add_one h
    omega
  · apply Prod.Lex.right
    omega

/-- Model of `removeBugNodes(scope)`: run the cleanup loop from index `0` over the
scope's node list. -/
def removeBugNodes (nodes : List NodeObj) : List NodeObj :=
  removeBugNodesLoop nodes 0

/-- A buggy node: non-intermediate kind with a concrete-element parent. -/
def bugNode : NodeObj := ⟨0, "CircuitElement"⟩

/-! ## Scope reconstruction (`loadScope`) and the project loader (`load`)

`loadScope(scope, data)` builds a fresh shallow copy `newScope` of the scope object
and performs every field assignment on that copy, returning it; `load` discards the
returned value.  Because the claims hinge on which object each assignment targets,
scope objects live in an explicit store and the array-valued fields (`allNodes`,
`Input`, `Output`) hold references to arrays in the store — a shallow copy shares
those references. -/

/-- Layout coordinates assigned to an input/output port (`layoutProperties`).  The
freshly generated unique `id` is not modelled. -/
structure LayoutProps where
  x : Int
  y : Int
deriving Repr, DecidableEq

/-- A live `Input`/`Output` element, restricted to its port-layout field. -/
structure PortObj where
  layoutProperties : Option LayoutProps
deriving Repr, DecidableEq

/-- A scope layout record: width, height, title position, and the optional
title-visibility flag (`none` models an absent `titleEnabled`). -/
structure LayoutRec where
  width : Int
  height : Int
  title_x : Int
  title_y : Int
  titleEnabled : Option Bool
deriving Repr, DecidableEq

/-- Verilog metadata carried by a scope document and copied verbatim. -/
structure VerilogMetadata where
  isVerilogCircuit : Bool
  isMainCircuit : Bool
deriving Repr, DecidableEq

/-- Testbench data: the fields the `TestbenchData` constructor consumes. -/
structure TestbenchData where
  testData : String
  currentGroup : Nat
  currentCase : Nat
deriving Repr, DecidableEq

/-- A serialized node record, restricted to its node-kind tag. -/
structure NodeDoc where
  nodeType : Nat
deriving Repr, DecidableEq

/-- A serialized `Input`/`Output` element record, restricted to the port-layout
field restored through the custom-data overlay. -/
structure PortDoc where
  layoutProperties : Option LayoutProps
deriving Repr, DecidableEq

/-- A serialized scope document (`ScopeDoc`), restricted to the fields the claims
are about.  `Input` and `Output` are the element-record collections for the two
port module types. -/
structure ScopeDoc where
  allNodes : List NodeDoc
  Input : List PortDoc
  Output : List PortDoc
  layout : Option LayoutRec
  verilogMetadata : Option VerilogMetadata
  testbenchData : Option TestbenchData
  restrictedCircuitElementsUsed : Option (List String)
deriving Repr, DecidableEq

/-- A live scope object.  `allNodes`, `Input` and `Output` are references into the
store's arrays (JavaScript array objects are shared between a scope and its shallow
copy); the remaining fields are plain values. -/
structure ScopeObj where
  allNodes : Nat
  Input : Nat
  Output : Nat
  layout : Option LayoutRec
  verilogMetadata : Option VerilogMetadata
  testbenchData : Option TestbenchData
  restrictedCircuitElementsUsed : Option (List String)
deriving Repr, DecidableEq

/-- The object store: scope objects and the node/port arrays they reference. -/
structure Store where
  nextScope : Nat
  scopes : Nat → ScopeObj
  nextArr : Nat
  nodeArrs : Nat → List NodeObj
  portArrs : Nat → List PortObj

/-- Assign the scope object at reference `r`. -/
def Store.writeScope (st : Store) (r : Nat) (v : ScopeObj) : Store :=
  { st with scopes := fun r2 => if r2 = r then v else st.scopes r2 }

/-- Allocate a fresh scope object, returning the store and the new reference. -/
def Store.allocScope (st : Store) (v : ScopeObj) : Store × Nat :=
  ({ st with nextScope := st.nextScope + 1,
             scopes := fun r2 => if r2 = st.nextScope then v else st.scopes r2 },
   st.nextScope)

/-- Overwrite the node array at reference `r` (in-place array mutation). -/
def Store.writeNodeArr (st : Store) (r : Nat) (v : List NodeObj) : Store :=
  { st with nodeArrs := fun r2 => if r2 = r then v else st.nodeArrs r2 }

/-- Overwrite the port array at reference `r` (in-place array mutation). -/
def Store.writePortArr (st : Store) (r : Nat) (v : List PortObj) : Store :=
  { st with portArrs := fun r2 => if r2 = r then v else st.portArrs r2 }

/-- Allocate a fresh node array. -/
def Store.allocNodeArr (st : Store) (v : List NodeObj) : Store × Nat :=
  ({ st with nextArr := st.nextArr + 1,
             nodeArrs := fun r2 => if r2 = st.nextArr then v else st.nodeArrs r2 },
   st.nextArr)

/-- Allocate a fresh port array. -/
def Store.allocPortArr (st : Store) (v : List PortObj) : Store × Nat :=
  ({ st with nextArr := st.nextArr + 1,
             portArrs := fun r2 => if r2 = st.nextArr then v else st.portArrs r2 },
   st.nextArr)

/-- Modelled from the spec: `loadNode` (node.js, not in the excerpt) constructs a
live node with the record's node-kind tag, parented to the scope's root
`CircuitElement`, and pushes it onto the scope's `allNodes` array. -/
def loadNodeObj (d : NodeDoc) : NodeObj :=
  ⟨d.nodeType, "CircuitElement"⟩

/-- Modelled from the spec: constructing an `Input`/`Output` element registers the
freshly built element in the owning scope's `Input`/`Output` collection. -/
def portOfDoc (d : PortDoc) : PortObj :=
  ⟨d.layoutProperties⟩

/-- JavaScript `Array.prototype.map` with the element index as second callback
argument, at starting index `i`. -/
def mapWithIndexAux (f : Nat → α → β) (i : Nat) : List α → List β
  | [] => []
  | a :: as => f i a :: mapWithIndexAux f (i + 1) as

/-- JavaScript `Array.prototype.map((element, index) => ...)`. -/
def mapWithIndex (f : Nat → α → β) (l : List α) : List β :=
  mapWithIndexAux f 0 l

/-- Model of `loadScope(scope, data)` (part_000 lines 103-188).  The returned
reference is the fresh shallow copy `newScope`; every assignment in the body
targets it.  `constructNodeConnections` (mutating only node connection lists) and
`wire.updateData` (wire geometry) do not touch the modelled state and are left
out; node and element construction are modelled from the spec as pushes onto the
shared arrays. -/
def loadScope (st : Store) (s : Nat) (d : ScopeDoc) : Store × Nat :=
  -- const newScope = { ...scope, restrictedCircuitElementsUsed: data.restrictedCircuitElementsUsed };
  let a := st.allocScope
    { st.scopes s with restrictedCircuitElementsUsed := d.restrictedCircuitElementsUsed }
  let st1 := a.1
  let n := a.2
  let ns := st1.scopes n
  -- data.allNodes.forEach((x) => loadNode(x, newScope));
  let st2 := st1.writeNodeArr ns.allNodes
    (st1.nodeArrs ns.allNodes ++ d.allNodes.map loadNodeObj)
  -- module loop: Input/Output constructors push onto the scope's collections
  let st3 := st2.writePortArr ns.Input (st2.portArrs ns.Input ++ d.Input.map portOfDoc)
  let st4 := st3.writePortArr ns.Output (st3.portArrs ns.Output ++ d.Output.map portOfDoc)
  -- removeBugNodes(newScope);
  let st5 := st4.writeNodeArr ns.allNodes (removeBugNodes (st4.nodeArrs ns.allNodes))
  -- if (data.verilogMetadata) { Object.assign(newScope, { verilogMetadata: ... }); }
  let st6 :=
    match d.verilogMetadata with
    | some vm => st5.writeScope n { st5.scopes n with verilogMetadata := some vm }
    | none => st5
  -- if (data.testbenchData) { Object.assign(newScope, { testbenchData: new TestbenchData(...) }); }
  let st7 :=
    match d.testbenchData with
    | some tb => st6.writeScope n
        { st6.scopes n with testbenchData := some ⟨tb.testData, tb.currentGroup, tb.currentCase⟩ }
    | none => st6
  -- if (data.layout) { Object.assign(newScope, { layout: data.layout }); } else { ... }
  let st8 :=
    match d.layout with
    | some l => st7.writeScope n { st7.scopes n with layout := some l }
    | none =>
      let curIn := st7.portArrs (st7.scopes n).Input
      let curOut := st7.portArrs (st7.scopes n).Output
      let newLayout : LayoutRec :=
        { width := 100, height := (Nat.max curIn.length curOut.length : Int) * 20 + 20,
          title_x := 50, title_y := 13, titleEnabled := none }
      let stL := st7.writeScope n { st7.scopes n with layout := some newLayout }
      let inputLayouts := mapWithIndex (fun i (input : PortObj) =>
        let lp : LayoutProps :=
          { x := 0,
            y := newLayout.height / 2 - (curIn.length : Int) * 10 + 20 * (i : Int) + 10 }
        { input with layoutProperties := some lp }) curIn
      let outputLayouts := mapWithIndex (fun i (output : PortObj) =>
        let lp : LayoutProps :=
          { x := newLayout.width,
            y := newLayout.height / 2 - (curOut.length : Int) * 10 + 20 * (i : Int) + 10 }
        { output with layoutProperties := some lp }) curOut
      let b := stL.allocPortArr inputLayouts
      let c := b.1.allocPortArr outputLayouts
      c.1.writeScope n { c.1.scopes n with Input := b.2, Output := c.2 }
  -- if (newScope.layout.titleEnabled === undefined) { ... titleEnabled: true ... }
  let stF :=
    match (st8.scopes n).layout with
    | some l =>
      if l.titleEnabled = none then
        st8.writeScope n { st8.scopes n with layout := some { l with titleEnabled := some true } }
      else st8
    | none => st8
  (stF, n)

/-- The store after `loadScope`. -/
def loadScopeStore (st : Store) (s : Nat) (d : ScopeDoc) : Store :=
  (loadScope st s d).1

/-- The reference to the `newScope` object returned by `loadScope`. -/
def loadScopeRef (st : Store) (s : Nat) (d : ScopeDoc) : Nat :=
  (loadScope st s d).2

/-- The `newScope` object returned by `loadScope`. -/
def loadScopeObj (st : Store) (s : Nat) (d : ScopeDoc) : ScopeObj :=
  (loadScopeStore st s d).scopes (loadScopeRef st s d)

/-- The contents of `newScope.Input` after `loadScope`. -/
def loadScopeInputs (st : Store) (s : Nat) (d : ScopeDoc) : List PortObj :=
  (loadScopeStore st s d).portArrs (loadScopeObj st s d).Input

/-- The contents of `newScope.Output` after `loadScope`. -/
def loadScopeOutputs (st : Store) (s : Nat) (d : ScopeDoc) : List PortObj :=
  (loadScopeStore st s d).portArrs (loadScopeObj st s d).Output

/-- The contents of the scope's `Input` array once the module loop has run: the
array the scope already referenced, extended by one constructed element per
`Input` record. -/
def modulesLoadedInputs (st : Store) (s : Nat) (d : ScopeDoc) : List PortObj :=
  st.portArrs (st.scopes s).Input ++ d.Input.map portOfDoc

/-- The contents of the scope's `Output` array once the module loop has run. -/
def modulesLoadedOutputs (st : Store) (s : Nat) (d : ScopeDoc) : List PortObj :=
  st.portArrs (st.scopes s).Output ++ d.Output.map portOfDoc

/-- Modelled from the spec: `newCircuit` (circuit.js, not in the excerpt) creates
a new empty scope — fresh empty node and port arrays, no layout, no verilog
metadata, no testbench data — registers it and returns it. -/
def newCircuit (st : Store) : Store × Nat :=
  let a := st.allocNodeArr []
  let b := a.1.allocPortArr []
  let c := b.1.allocPortArr []
  c.1.allocScope
    { allNodes := a.2, Input := b.2, Output := c.2, layout := none,
      verilogMetadata := none, testbenchData := none,
      restrictedCircuitElementsUsed := none }

/-- The per-scope body of `load` (part_000 lines 219-237): create a new scope via
`newCircuit`, call `loadScope(scope, data.scopes[i])` discarding its return value,
and keep the created scope as the focused `globalScope`. -/
def loadOneScope (st : Store) (d : ScopeDoc) : Store × Nat :=
  let a := newCircuit st
  let r := loadScope a.1 a.2 d
  (r.1, a.2)

/-- A default scope object for concrete evaluations: its array references point at
empty arrays of the store below. -/
def scopeW : ScopeObj := ⟨0, 1, 2, none, none, none, none⟩

/-- A concrete one-scope store for witnesses. -/
def storeW : Store := ⟨1, fun _ => scopeW, 3, fun _ => [], fun _ => []⟩

/-- A concrete scope document with one `Input` record, one `Output` record and no
layout, verilog metadata or testbench data. -/
def docW : ScopeDoc := ⟨[], [⟨none⟩], [⟨none⟩], none, none, none, none⟩

/-! ## Theorems -/

theorem length_mapWithIndexAux (f : Nat → α → β) (i : Nat) (l : List α) :
    (mapWithIndexAux f i l).length = l.length := by
  induction l generalizing i with
  | nil => rfl
  | cons a as ih => simp [mapWithIndexAux, ih]

theorem length_mapWithIndex (f : Nat → α → β) (l : List α) :
    (mapWithIndex f l).length = l.length :=
  length_mapWithIndexAux f 0 l

theorem getElem?_mapWithIndexAux (f : Nat → α → β) (i : Nat) (l : List α) (j : Nat) :
    (mapWithIndexAux f i l)[j]? = (l[j]?).map (f (i + j)) := by
  induction l generalizing i j with
  | nil => simp [mapWithIndexAux]
  | cons a as ih =>
    cases j with
    | zero => simp [mapWithIndexAux]
    | succ j =>
      have hadd : i + (j + 1) = i + 1 + j := by omega
      simp only [mapWithIndexAux, List.getElem?_cons_succ, hadd, ih (i + 1) j]

theorem get_mapWithIndex (f : Nat → α → β) (l : List α) (j : Nat) (hj : j < l.length)
    (hj2 : j < (mapWithIndex f l).length) :
    (mapWithIndex f l).get ⟨j, hj2⟩ = f j (l.get ⟨j, hj⟩) := by
  have h1 : (mapWithIndex f l)[j]? = some ((mapWithIndex f l).get ⟨j, hj2⟩) := by
    rw [List.getElem?_eq_getElem hj2, List.get_eq_getElem]
  have h2 : (mapWithIndex f l)[j]? = some (f j (l.get ⟨j, hj⟩)) := by
    rw [mapWithIndex, getElem?_mapWithIndexAux, List.getElem?_eq_getElem hj]
    simp
  rw [h1] at h2
  exact (Option.some.injEq _ _ ▸ h2).symm ▸ rfl

section StoreLemmas

variable (st : Store) (r r2 : Nat) (v : ScopeObj) (nv : List NodeObj) (pv : List PortObj)

@[simp] theorem writeScope_scopes :
    (st.writeScope r v).scopes r2 = if r2 = r then v else st.scopes r2 := rfl
@[simp] theorem writeScope_nodeArrs : (st.writeScope r v).nodeArrs r2 = st.nodeArrs r2 := rfl
@[simp] theorem writeScope_portArrs : (st.writeScope r v).portArrs r2 = st.portArrs r2 := rfl
@[simp] theorem writeScope_nextScope : (st.writeScope r v).nextScope = st.nextScope := rfl
@[simp] theorem writeScope_nextArr : (st.writeScope r v).nextArr = st.nextArr := rfl

@[simp] theorem writeNodeArr_nodeArrs :
    (st.writeNodeArr r nv).nodeArrs r2 = if r2 = r then nv else st.nodeArrs r2 := rfl
@[simp] theorem writeNodeArr_scopes : (st.writeNodeArr r nv).scopes r2 = st.scopes r2 := rfl
@[simp] theorem writeNodeArr_portArrs : (st.writeNodeArr r nv).portArrs r2 = st.portArrs r2 := rfl
@[simp] theorem writeNodeArr_nextScope : (st.writeNodeArr r nv).nextScope = st.nextScope := rfl
@[simp] theorem writeNodeArr_nextArr : (st.writeNodeArr r nv).nextArr = st.nextArr := rfl

@[simp] theorem writePortArr_portArrs :
    (st.writePortArr r pv).portArrs r2 = if r2 = r then pv else st.portArrs r2 := rfl
@[simp] theorem writePortArr_scopes : (st.writePortArr r pv).scopes r2 = st.scopes r2 := rfl
@[simp] theorem writePortArr_nodeArrs : (st.writePortArr r pv).nodeArrs r2 = st.nodeArrs r2 := rfl
@[simp] theorem writePortArr_nextScope : (st.writePortArr r pv).nextScope = st.nextScope := rfl
@[simp] theorem writePortArr_nextArr : (st.writePortArr r pv).nextArr = st.nextArr := rfl

@[simp] theorem allocScope_snd : (st.allocScope v).2 = st.nextScope := rfl
@[simp] theorem allocScope_fst_scopes :
    (st.allocScope v).1.scopes r2 = if r2 = st.nextScope then v else st.scopes r2 := rfl
@[simp] theorem allocScope_fst_nodeArrs : (st.allocScope v).1.nodeArrs r2 = st.nodeArrs r2 := rfl
@[simp] theorem allocScope_fst_portArrs : (st.allocScope v).1.portArrs r2 = st.portArrs r2 := rfl
@[simp] theorem allocScope_fst_nextScope : (st.allocScope v).1.nextScope = st.nextScope + 1 := rfl
@[simp] theorem allocScope_fst_nextArr : (st.allocScope v).1.nextArr = st.nextArr := rfl

@[simp] theorem allocNodeArr_snd : (st.allocNodeArr nv).2 = st.nextArr := rfl
@[simp] theorem allocNodeArr_fst_nodeArrs :
    (st.allocNodeArr nv).1.nodeArrs r2 = if r2 = st.nextArr then nv else st.nodeArrs r2 := rfl
@[simp] theorem allocNodeArr_fst_scopes : (st.allocNodeArr nv).1.scopes r2 = st.scopes r2 := rfl
@[simp] theorem allocNodeArr_fst_portArrs : (st.allocNodeArr nv).1.portArrs r2 = st.portArrs r2 := rfl
@[simp] theorem allocNodeArr_fst_nextScope : (st.allocNodeArr nv).1.nextScope = st.nextScope := rfl
@[simp] theorem allocNodeArr_fst_nextArr : (st.allocNodeArr nv).1.nextArr = st.nextArr + 1 := rfl

@[simp] theorem allocPortArr_snd : (st.allocPortArr pv).2 = st.nextArr := rfl
@[simp] theorem allocPortArr_fst_portArrs :
    (st.allocPortArr pv).1.portArrs r2 = if r2 = st.nextArr then pv else st.portArrs r2 := rfl
@[simp] theorem allocPortArr_fst_scopes : (st.allocPortArr pv).1.scopes r2 = st.scopes r2 := rfl
@[simp] theorem allocPortArr_fst_nodeArrs : (st.allocPortArr pv).1.nodeArrs r2 = st.nodeArrs r2 := rfl
@[simp] theorem allocPortArr_fst_nextScope : (st.allocPortArr pv).1.nextScope = st.nextScope := rfl
@[simp] theorem allocPortArr_fst_nextArr : (st.allocPortArr pv).1.nextArr = st.nextArr + 1 := rfl

end StoreLemmas

/-- The reference `loadScope` returns is the one freshly allocated for
`newScope`. -/
theorem loadScopeRef_eq (st : Store) (s : Nat) (d : ScopeDoc) :
    loadScopeRef st s d = st.nextScope := rfl

/-- No assignment in `loadScope` targets a previously existing scope object:
every scope object other than the fresh `newScope` is untouched. -/
theorem loadScope_scopes_ne (st : Store) (s : Nat) (d : ScopeDoc) (r : Nat)
    (hr : r ≠ st.nextScope) :
    (loadScopeStore st s d).scopes r = st.scopes r := by
  unfold loadScopeStore loadScope
  cases hv : d.verilogMetadata <;> cases ht : d.testbenchData <;> cases hl : d.layout <;>
    simp [hr] <;> (try split) <;> simp [hr]

/-- After the per-scope body of `load`, the scope object that `newCircuit` created
— the one `load` keeps as `globalScope` — is still exactly the freshly created
default object: `loadScope`'s return value was discarded and none of its
assignments targeted this object. -/
theorem loadOneScope_keeps_default (st : Store) (d : ScopeDoc) :
    (loadOneScope st d).1.scopes (loadOneScope st d).2 =
      ScopeObj.mk st.nextArr (st.nextArr + 1) (st.nextArr + 2) none none none none := by
  have hne : (newCircuit st).2 ≠ (newCircuit st).1.nextScope := by
    simp [newCircuit]
  have h2 : (loadOneScope st d).1.scopes (loadOneScope st d).2 =
      (newCircuit st).1.scopes (newCircuit st).2 :=
    loadScope_scopes_ne (newCircuit st).1 (newCircuit st).2 d (newCircuit st).2 hne
  rw [h2]
  simp [newCircuit]

/-- A non-root placement target is the id of some folder in the collection. -/
theorem placedUnder_mem (folders : List Folder) (f : Folder)
    (h : placedUnder folders f ≠ "root") :
    ∃ g ∈ folders, g.id = placedUnder folders f := by
  unfold placedUnder at *
  cases hp : f.parentId with
  | none => simp [hp] at h
  | some p =>
    rw [hp] at h
    by_cases h1 : p = ""
    · simp [h1] at h
    · by_cases h2 : p = "root"
      · simp [h1, h2] at h
      · by_cases h3 : p ∈ validFolderIds folders
        · simp only [h1, h2, h3, if_false, if_true]
          unfold validFolderIds at h3
          simp only [List.mem_map, List.mem_filter] at h3
          obtain ⟨g, ⟨hg, _⟩, hid⟩ := h3
          exact ⟨g, hg, hid⟩
        · simp [h1, h2, h3] at h

/-- Contents of `newScope.Input` and `newScope.Output` and the resolved layout in
the backward-compatibility branch (no layout in the document): the synthesized
layout and the freshly generated port layouts, in terms of the arrays as the
module loop left them.  `hInOut` states that the scope's `Input` and `Output` fields
reference distinct array objects, as every real scope's do. -/
theorem loadScope_noLayout_eval (st : Store) (s : Nat) (d : ScopeDoc)
    (hl : d.layout = none)
    (hInOut : (st.scopes s).Input ≠ (st.scopes s).Output) :
    loadScopeInputs st s d = mapWithIndex (fun i (input : PortObj) =>
      { input with layoutProperties := some ⟨0,
          ((Nat.max (modulesLoadedInputs st s d).length (modulesLoadedOutputs st s d).length : Int)
              * 20 + 20) / 2
            - ((modulesLoadedInputs st s d).length : Int) * 10 + 20 * (i : Int) + 10⟩ })
      (modulesLoadedInputs st s d) ∧
    loadScopeOutputs st s d = mapWithIndex (fun i (output : PortObj) =>
      { output with layoutProperties := some ⟨100,
          ((Nat.max (modulesLoadedInputs st s d).length (modulesLoadedOutputs st s d).length : Int)
              * 20 + 20) / 2
            - ((modulesLoadedOutputs st s d).length : Int) * 10 + 20 * (i : Int) + 10⟩ })
      (modulesLoadedOutputs st s d) ∧
    (loadScopeObj st s d).layout = some ⟨100,
      (Nat.max (modulesLoadedInputs st s d).length (modulesLoadedOutputs st s d).length : Int)
        * 20 + 20,
      50, 13, some true⟩ := by
  have hInOut2 : (st.scopes s).Output ≠ (st.scopes s).Input := Ne.symm hInOut
  unfold loadScopeInputs loadScopeOutputs loadScopeObj loadScopeStore loadScopeRef loadScope
    modulesLoadedInputs modulesLoadedOutputs
  cases hv : d.verilogMetadata <;> cases ht : d.testbenchData <;>
    simp [hl, hInOut, hInOut2]

/-- Claim C1: `loadScope` performs every assignment of `layout`,
`verilogMetadata`, `testbenchData`, `Input` and `Output` on the fresh shallow
copy `newScope` it returns, leaving those fields of the original scope object
untouched; and since `load` discards `loadScope`'s return value, the scope
created by `newCircuit` never receives the resolved layout or the
testbench/verilog data. -/
theorem C1_load_discards_new_scope (st : Store) (s : Nat) (d : ScopeDoc)
    (hs : s < st.nextScope) :
    ((loadScopeStore st s d).scopes s).layout = (st.scopes s).layout ∧
    ((loadScopeStore st s d).scopes s).verilogMetadata = (st.scopes s).verilogMetadata ∧
    ((loadScopeStore st s d).scopes s).testbenchData = (st.scopes s).testbenchData ∧
    ((loadScopeStore st s d).scopes s).Input = (st.scopes s).Input ∧
    ((loadScopeStore st s d).scopes s).Output = (st.scopes s).Output ∧
    ((loadOneScope st d).1.scopes (loadOneScope st d).2).layout = none ∧
    ((loadOneScope st d).1.scopes (loadOneScope st d).2).verilogMetadata = none ∧
    ((loadOneScope st d).1.scopes (loadOneScope st d).2).testbenchData = none := by
  have h := loadScope_scopes_ne st s d s (Nat.ne_of_lt hs)
  rw [h, loadOneScope_keeps_default]
  simp

/-- Witness for C1 at a concrete store and document. -/
theorem C1_witness :
    0 < storeW.nextScope ∧
    ((loadScopeStore storeW 0 docW).scopes 0).layout = (storeW.scopes 0).layout ∧
    ((loadOneScope storeW docW).1.scopes (loadOneScope storeW docW).2).layout = none :=
  ⟨by decide,
   (C1_load_discards_new_scope storeW 0 docW (by decide)).1,
   (C1_load_discards_new_scope storeW 0 docW (by decide)).2.2.2.2.2.1⟩

/-- Claim C2: a move whose destination equals the subcircuit's current container is
claimed to leave the map unchanged and schedule no backup.  Evaluated at the failing
input: subcircuit `"sc1"` is loaded, has no map entry (so it is already in root),
and is moved to root (`folderId = none`).  The map is indeed unchanged, but the
early no-op return does not fire (`currentFolder` is the string `"root"` while the
destination is `null`), so the code runs the mutation path and does call
`scheduleBackup`. -/
theorem C2_root_to_root_move_schedules_backup :
    mapLookup [] "sc1" = none ∧
    (moveSubcircuitToFolder "sc1" none ["sc1"] [] []).map = [] ∧
    (moveSubcircuitToFolder "sc1" none ["sc1"] [] []).backupScheduled = true := by
  decide

/-- Claim C3 evaluated at the failing input: with two buggy nodes at the head of
the list, the first deletion resets the scan — but the `for` increment resumes it
at index `1`, so the second buggy node (now at index `0`) is never examined again
and survives.  The pass does not reach the claimed fixed point. -/
theorem C3_cleanup_misses_shifted_bug_node :
    isBugNode bugNode = true ∧
    removeBugNodes [bugNode, bugNode] = [bugNode] := by
  constructor
  · rfl
  · rw [removeBugNodes, removeBugNodesLoop]
    norm_num [isBugNode, bugNode]
    rw [removeBugNodesLoop]
    norm_num

/-- Claim C4 as stated is false on the code: a record carrying an explicit
`labelDirection` whose value is the empty string does not keep that value — the
`||` fallback treats every falsy value as absent and derives the opposite of the
element's orientation instead. -/
theorem C4_counterexample :
    (ElementDoc.mk "AndGate" 0 0 none (some "") none).labelDirection = some "" ∧
    (loadModule (fun t => if t = "AndGate" then some ⟨"RIGHT", 10⟩ else none)
        (ElementDoc.mk "AndGate" 0 0 none (some "") none)).map ElementObj.labelDirection =
      some "LEFT" ∧
    some "LEFT" ≠ (some "" : Option String) := by
  constructor
  · rfl
  · constructor
    · rfl
    · simp

/-- Claim C4, amended: when `labelDirection` is absent or is an explicit falsy
(empty) string, the constructed element's label direction is the direction
opposite to the element's own orientation after legacy-token normalization; an
explicit truthy (nonempty) `labelDirection` is used unchanged. -/
theorem C4_label_direction (modules : String → Option ElementDefaults)
    (data : ElementDoc) (dflt : ElementDefaults)
    (hm : modules (rectifyObjectType data.objectType) = some dflt) :
    ((data.labelDirection = none ∨ data.labelDirection = some "") →
      (loadModule modules data).map ElementObj.labelDirection =
        some (oppositeDirection (fixDirection dflt.direction))) ∧
    (∀ s, data.labelDirection = some s → s ≠ "" →
      (loadModule modules data).map ElementObj.labelDirection = some s) := by
  constructor
  · rintro (hld | hld) <;> simp [loadModule, hm, hld] <;> split <;> rfl
  · intro s hld hs
    simp [loadModule, hm, hld, hs]
    split <;> rfl

/-- Witness for the amended C4: with no `labelDirection` in the record and a
constructor orientation of `"right"` (a legacy token), the element gets the
normalized opposite, `"LEFT"`. -/
theorem C4_witness :
    (loadModule (fun t => if t = "AndGate" then some ⟨"right", 10⟩ else none)
        (ElementDoc.mk "AndGate" 0 0 none none none)).map ElementObj.labelDirection =
      some "LEFT" := by
  have h := C4_label_direction
    (fun t => if t = "AndGate" then some ⟨"right", 10⟩ else none)
    (ElementDoc.mk "AndGate" 0 0 none none none) ⟨"right", 10⟩ (by rfl)
  exact h.1 (Or.inl rfl)

/-- Claim C5: a move whose destination folder does not exist in the scope's folder
collection, or whose subcircuit id does not name a currently loaded scope, leaves
the subcircuit map exactly as it was, schedules no backup, and never reaches the
success path. -/
theorem C5_invalid_move_leaves_state_unchanged (subcircuitId : String)
    (folderId : Option String) (scopes : List String) (folders : List Folder)
    (m : SubcircuitMap)
    (h : (∃ fid, folderId = some fid ∧ ∀ f ∈ folders, f.id ≠ fid) ∨
         subcircuitId ∉ scopes) :
    moveSubcircuitToFolder subcircuitId folderId scopes folders m = ⟨m, false, false⟩ := by
  unfold moveSubcircuitToFolder
  by_cases hid : subcircuitId = ""
  · simp [hid]
  · simp only [hid, if_false]
    by_cases hsc : subcircuitId ∈ scopes
    · rcases h with ⟨fid, hfid, hall⟩ | hns
      · subst hfid
        simp only [hsc, not_true_eq_false, if_false]
        by_cases hsame :
            (match mapLookup m subcircuitId with
              | some f => if f = "" then "root" else f
              | none => "root") == fid
        · simp [hsame]
        · simp only [hsame, if_false]
          have hany : folders.any (fun f => f.id == fid) = false := by
            simp only [List.any_eq_false, beq_iff_eq]
            intro f hf
            exact hall f hf
          simp [hany]
      · exact absurd hsc hns
    · simp [hsc]

/-- Witness for C5 at a concrete input: destination folder `"nofolder"` does not
exist, so the stale map survives byte for byte and no backup is scheduled. -/
theorem C5_witness :
    moveSubcircuitToFolder "sc1" (some "nofolder") ["sc1"] [] [("sc1", "f1")] =
      ⟨[("sc1", "f1")], false, false⟩ :=
  C5_invalid_move_leaves_state_unchanged "sc1" (some "nofolder") ["sc1"] [] [("sc1", "f1")]
    (Or.inl ⟨"nofolder", rfl, by simp⟩)

/-- Claim C6: an explicit `propagationDelay` of zero is honored as zero, and an
absent `propagationDelay` leaves the type's built-in default delay in place. -/
theorem C6_propagation_delay (modules : String → Option ElementDefaults)
    (data : ElementDoc) (dflt : ElementDefaults)
    (hm : modules (rectifyObjectType data.objectType) = some dflt) :
    (data.propagationDelay = some 0 →
      (loadModule modules data).map ElementObj.propagationDelay = some 0) ∧
    (data.propagationDelay = none →
      (loadModule modules data).map ElementObj.propagationDelay =
        some dflt.propagationDelay) := by
  constructor <;> intro hd <;> simp [loadModule, hm, hd]

/-- Witness for C6: a record with `propagationDelay: 0` yields delay exactly `0`
even though the type default is `10`, and a record without the field keeps the
default `10`. -/
theorem C6_witness :
    (loadModule (fun t => if t = "AndGate" then some ⟨"RIGHT", 10⟩ else none)
        (ElementDoc.mk "AndGate" 0 0 none none (some 0))).map ElementObj.propagationDelay =
      some 0 ∧
    (loadModule (fun t => if t = "AndGate" then some ⟨"RIGHT", 10⟩ else none)
        (ElementDoc.mk "AndGate" 0 0 none none none)).map ElementObj.propagationDelay =
      some 10 := by
  constructor
  · exact (C6_propagation_delay _ _ ⟨"RIGHT", 10⟩ (by rfl)).1 rfl
  · exact (C6_propagation_delay _ _ ⟨"RIGHT", 10⟩ (by rfl)).2 rfl

/-- Claim C7: type-tag rectification happens before construction — the
constructed element carries the rectified tag, an element is constructible
exactly when the registry knows the rectified tag, `"FlipFlop"` becomes
`"DflipFlop"`, `"Ram"` becomes `"Rom"`, and every other tag is passed through
unchanged. -/
theorem C7_type_rectification :
    (∀ (modules : String → Option ElementDefaults) (data : ElementDoc),
      loadModule modules data = none ∨
        (loadModule modules data).map ElementObj.objectType =
          some (rectifyObjectType data.objectType)) ∧
    (∀ (modules : String → Option ElementDefaults) (data : ElementDoc),
      (loadModule modules data).isSome =
        (modules (rectifyObjectType data.objectType)).isSome) ∧
    (∀ t, rectifyObjectType t =
      if t = "FlipFlop" then "DflipFlop" else if t = "Ram" then "Rom" else t) := by
  refine ⟨?_, ?_, fun t => rfl⟩
  · intro modules data
    cases hm : modules (rectifyObjectType data.objectType) with
    | none => exact Or.inl (by simp [loadModule, hm])
    | some dflt => exact Or.inr (by simp [loadModule, hm]; split <;> rfl)
  · intro modules data
    cases hm : modules (rectifyObjectType data.objectType) with
    | none => simp [loadModule, hm]
    | some dflt => simp [loadModule, hm]

/-- Claim C8: a document without a layout record gets the deterministic
synthesized layout — width `100`, height `max(inputCount, outputCount) * 20 + 20`,
title at `(50, 13)` (with visibility then defaulted on) — and every input port
gets layout coordinates `x = 0`, `y = height/2 - inputCount*10 + 20*i + 10`,
outputs symmetrically at `x = width`. -/
theorem C8_layout_synthesis (st : Store) (s : Nat) (d : ScopeDoc)
    (hl : d.layout = none)
    (hInOut : (st.scopes s).Input ≠ (st.scopes s).Output) :
    (loadScopeObj st s d).layout = some ⟨100,
      (Nat.max (loadScopeInputs st s d).length (loadScopeOutputs st s d).length : Int)
        * 20 + 20, 50, 13, some true⟩ ∧
    (∀ i, i < (loadScopeInputs st s d).length →
      ((loadScopeInputs st s d)[i]?).map PortObj.layoutProperties = some (some ⟨0,
        ((Nat.max (loadScopeInputs st s d).length (loadScopeOutputs st s d).length : Int)
            * 20 + 20) / 2
          - ((loadScopeInputs st s d).length : Int) * 10 + 20 * (i : Int) + 10⟩)) ∧
    (∀ i, i < (loadScopeOutputs st s d).length →
      ((loadScopeOutputs st s d)[i]?).map PortObj.layoutProperties = some (some ⟨100,
        ((Nat.max (loadScopeInputs st s d).length (loadScopeOutputs st s d).length : Int)
            * 20 + 20) / 2
          - ((loadScopeOutputs st s d).length : Int) * 10 + 20 * (i : Int) + 10⟩)) := by
  obtain ⟨hIn, hOut, hLay⟩ := loadScope_noLayout_eval st s d hl hInOut
  have hInLen : (loadScopeInputs st s d).length = (modulesLoadedInputs st s d).length := by
    rw [hIn, length_mapWithIndex]
  have hOutLen : (loadScopeOutputs st s d).length = (modulesLoadedOutputs st s d).length := by
    rw [hOut, length_mapWithIndex]
  refine ⟨?_, ?_, ?_⟩
  · rw [hInLen, hOutLen]
    exact hLay
  · intro i hi
    rw [hInLen] at hi
    rw [hInLen, hOutLen, hIn, mapWithIndex, getElem?_mapWithIndexAux,
      List.getElem?_eq_getElem hi]
    simp
  · intro i hi
    rw [hOutLen] at hi
    rw [hInLen, hOutLen, hOut, mapWithIndex, getElem?_mapWithIndexAux,
      List.getElem?_eq_getElem hi]
    simp

/-- Witness for C8 at one input and one output: height `max(1,1)*20+20 = 40`,
title at `(50, 13)`, the input port at `(0, 20)` and the output port at
`(100, 20)` (`40/2 - 10 + 0 + 10 = 20`). -/
theorem C8_witness :
    (loadScopeObj storeW 0 docW).layout = some ⟨100, 40, 50, 13, some true⟩ ∧
    ((loadScopeInputs storeW 0 docW)[0]?).map PortObj.layoutProperties =
      some (some ⟨0, 20⟩) ∧
    ((loadScopeOutputs storeW 0 docW)[0]?).map PortObj.layoutProperties =
      some (some ⟨100, 20⟩) := by
  have h := C8_layout_synthesis storeW 0 docW rfl (by decide)
  refine ⟨?_, ?_, ?_⟩
  · exact h.1.trans (by rfl)
  · exact (h.2.1 0 (by decide)).trans (by rfl)
  · exact (h.2.2 0 (by decide)).trans (by rfl)

/-- Claim C9: after layout resolution, a missing `titleEnabled` flag is defaulted
to `true` no matter which branch produced the layout: a document layout keeps all
its fields with `titleEnabled` defaulted only when absent (an explicit `false` is
preserved), and a synthesized layout ends up with `titleEnabled = true` as
well. -/
theorem C9_titleEnabled_default (st : Store) (s : Nat) (d : ScopeDoc) :
    (∀ l, d.layout = some l →
      (loadScopeObj st s d).layout =
        some { l with titleEnabled := some (l.titleEnabled.getD true) }) ∧
    (d.layout = none →
      ∃ l, (loadScopeObj st s d).layout = some l ∧ l.titleEnabled = some true) := by
  constructor
  · intro l hl
    obtain ⟨w, hgt, tx, ty, te⟩ := l
    unfold loadScopeObj loadScopeStore loadScopeRef loadScope
    cases hv : d.verilogMetadata <;> cases ht : d.testbenchData <;>
      cases te <;> simp [hl]
  · intro hl
    unfold loadScopeObj loadScopeStore loadScopeRef loadScope
    cases hv : d.verilogMetadata <;> cases ht : d.testbenchData <;> simp [hl]

/-- Witness for C9: a document layout without the flag gets `titleEnabled = true`,
and an explicit `titleEnabled = false` survives. -/
theorem C9_witness :
    (loadScopeObj storeW 0 { docW with layout := some ⟨100, 40, 50, 13, none⟩ }).layout =
      some ⟨100, 40, 50, 13, some true⟩ ∧
    (loadScopeObj storeW 0 { docW with layout := some ⟨100, 40, 50, 13, some false⟩ }).layout =
      some ⟨100, 40, 50, 13, some false⟩ := by
  constructor
  · exact (C9_titleEnabled_default storeW 0 _).1 ⟨100, 40, 50, 13, none⟩ rfl
  · exact (C9_titleEnabled_default storeW 0 _).1 ⟨100, 40, 50, 13, some false⟩ rfl

/-- Claim C10: when the folder tree is built for display, a folder whose
`parentId` is absent or names no folder in the collection is placed directly
under the root container, and (given the data-model invariants: folder ids are
nonempty, the id `"root"` is reserved for the implicit root, and the parent
relation is acyclic, witnessed by a rank function that drops along `placedUnder`)
every folder remains reachable from the traversal root. -/
theorem C10_self_healing_folder_tree (folders : List Folder) (rank : String → Nat)
    (_hids : ∀ f ∈ folders, f.id ≠ "" ∧ f.id ≠ "root")
    (hacyclic : ∀ f ∈ folders, ∀ g ∈ folders,
      placedUnder folders f = g.id → rank g.id < rank f.id) :
    (∀ f ∈ folders, (∀ p, f.parentId = some p → ∀ g ∈ folders, g.id ≠ p) →
      placedUnder folders f = "root") ∧
    (∀ f ∈ folders, ReachesRoot folders f) := by
  constructor
  · intro f _ hdangling
    unfold placedUnder
    cases hp : f.parentId with
    | none => rfl
    | some p =>
      by_cases h1 : p = ""
      · simp [h1]
      · by_cases h2 : p = "root"
        · simp [h1, h2]
        · have h3 : p ∉ validFolderIds folders := by
            unfold validFolderIds
            simp only [List.mem_map, List.mem_filter]
            rintro ⟨g, ⟨hg, _⟩, hid⟩
            exact hdangling p hp g hg hid
          simp [h1, h2, h3]
  · have key : ∀ fuel f, f ∈ folders → rank f.id < fuel →
        reachesRootAux folders fuel f = true := by
      intro fuel
      induction fuel with
      | zero => intro f _ hr; omega
      | succ fuel ih =>
        intro f hf hr
        unfold reachesRootAux
        by_cases hroot : placedUnder folders f = "root"
        · simp [hroot]
        · simp only [hroot, if_false]
          obtain ⟨g0, hg0, hid0⟩ := placedUnder_mem folders f hroot
          cases hfind : folders.find? (fun g => g.id == placedUnder folders f) with
          | none =>
            rw [List.find?_eq_none] at hfind
            exact absurd (by simp [hid0]) (hfind g0 hg0)
          | some g =>
            have hgmem : g ∈ folders := List.mem_of_find?_eq_some hfind
            have hgid : g.id = placedUnder folders f := by
              have := List.find?_some hfind
              simpa using this
            have hlt : rank g.id < rank f.id := hacyclic f hf g hgmem hgid.symm
            exact ih g hgmem (by omega)
    intro f hf
    exact ⟨rank f.id + 1, key (rank f.id + 1) f hf (Nat.lt_succ_self _)⟩

/-- Witness for C10: the folder with the dangling parent is placed directly under
root, and both folders are reachable from the traversal root. -/
theorem C10_witness :
    placedUnder foldersC10 ⟨"f1", "A", some "ghost"⟩ = "root" ∧
    ReachesRoot foldersC10 ⟨"f1", "A", some "ghost"⟩ ∧
    ReachesRoot foldersC10 ⟨"f2", "B", some "f1"⟩ := by
  have h := C10_self_healing_folder_tree foldersC10 rankC10
    (by decide)
    (by decide)
  refine ⟨h.1 ⟨"f1", "A", some "ghost"⟩ (by simp [foldersC10]) ?_,
    h.2 ⟨"f1", "A", some "ghost"⟩ (by simp [foldersC10]),
    h.2 ⟨"f2", "B", some "f1"⟩ (by simp [foldersC10])⟩
  intro p hp g hg
  simp only [Option.some_inj] at hp
  subst hp
  fin_cases hg <;> decide

end CircuitVerse
